import Mathlib

/-!
Shallow embedding of `src/exmaralda_converter/exmaralda.py` (the annotation
document model of the exmaralda-converter repository) together with proofs
about the claims on its specification.

Modelling conventions:
* Python `dict` (insertion-ordered, unique keys) is an association list
  `List (κ × β)`; assignment to an existing key updates the value in place,
  assignment to a fresh key appends at the end (`dictSet`), matching CPython
  iteration-order semantics.
* Python dynamic values that are either `int` or `str` at runtime are the
  inductive `PyNum` (time stamps) and `TimeId` (time-point identifiers):
  programmatic construction mints `int` identifiers, `ExmaraldaTranscript.load`
  installs `str` identifiers taken from the document.  Float time stamps are
  outside the claims considered here and are not modelled.
* Arguments that the Python code accepts as "str or list of str" are the
  inductive `StrOrList`.
* Fallible dictionary subscripts (`d[k]`, Python `KeyError`) are modelled in
  the `Except String` monad.
-/

/-- Membership test of a key in an insertion-ordered dictionary
(Python `k in d.keys()`). -/
def dictContains {κ β : Type} [DecidableEq κ] (d : List (κ × β)) (k : κ) : Bool :=
  d.any (fun p => p.1 = k)

/-- Lookup in an insertion-ordered dictionary (Python `d.get(k)`). -/
def dictGet? {κ β : Type} [DecidableEq κ] (d : List (κ × β)) (k : κ) : Option β :=
  (d.find? (fun p => p.1 = k)).map Prod.snd

/-- Assignment `d[k] = v` on an insertion-ordered dictionary: updates the
value in place if the key exists, else appends the new binding at the end. -/
def dictSet {κ β : Type} [DecidableEq κ] (d : List (κ × β)) (k : κ) (v : β) : List (κ × β) :=
  if dictContains d k then d.map (fun p => if p.1 = k then (p.1, v) else p) else d ++ [(k, v)]

/-- A Python runtime value that is either an `int` or a `str`
(used for `Timepoint.time_stamp`: the `-1` sentinel is an int, values read
from a `time` attribute by `load` are strings). -/
inductive PyNum : Type where
  | int (n : Int)
  | str (s : String)
deriving DecidableEq, Repr

/-- Python `str(x)` on a `PyNum`. -/
def PyNum.render : PyNum → String
  | .int n => toString n
  | .str s => s

/-- A time-point identifier: an `int` minted by the allocator, or a `str`
installed by the parser (`load` overwrites `time_id` with a string slice
of the `id` attribute). -/
inductive TimeId : Type where
  | int (n : Int)
  | str (s : String)
deriving DecidableEq, Repr

/-- Python `"T{}".format(time_id)` body: string form of a time identifier. -/
def TimeId.render : TimeId → String
  | .int n => toString n
  | .str s => s

/-- A Python argument that may be a `str` or a `list` of `str`
(the `languages_used`/`l1`/`l2` parameters of `Speaker.__init__`). -/
inductive StrOrList : Type where
  | str (s : String)
  | list (l : List String)
deriving DecidableEq, Repr

/-- `Speaker` (exmaralda.py lines 16-221): one conversation participant. -/
structure Speaker : Type where
  speaker_id : String
  abbreviation : String
  sex : String
  languages_used : List String
  l1 : List String
  l2 : List String
  ud_speaker_information : String
  comment : String
deriving DecidableEq, Repr

/-- `Speaker.__init__` (lines 50-77): each of the three language arguments is
replaced by the empty list when it is a string (`[] if isinstance(x, str)
else x`); list arguments are stored as given. -/
def Speaker.init (speaker_id abbreviation sex : String)
    (languages_used l1 l2 : StrOrList)
    (ud_speaker_information comment : String) : Speaker :=
  { speaker_id := speaker_id
    abbreviation := abbreviation
    sex := sex
    languages_used := match languages_used with | .str _ => [] | .list l => l
    l1 := match l1 with | .str _ => [] | .list l => l
    l2 := match l2 with | .str _ => [] | .list l => l
    ud_speaker_information := ud_speaker_information
    comment := comment }

/-- `Speaker.__eq__` (lines 81-98): scalar fields compared by `==`, the three
language lists compared as Python sets (`set(xs) == set(ys)`, i.e. equality
of the finite sets of elements). -/
def Speaker.eq (self other : Speaker) : Bool :=
  if ¬ (self.speaker_id = other.speaker_id) then false
  else if ¬ (self.abbreviation = other.abbreviation) then false
  else if ¬ (self.sex = other.sex) then false
  else if ¬ (self.languages_used.toFinset = other.languages_used.toFinset) then false
  else if ¬ (self.l1.toFinset = other.l1.toFinset) then false
  else if ¬ (self.l2.toFinset = other.l2.toFinset) then false
  else if ¬ (self.ud_speaker_information = other.ud_speaker_information) then false
  else if ¬ (self.comment = other.comment) then false
  else true

/-- `Speaker.__lt__` (lines 106-107). -/
def Speaker.lt (self other : Speaker) : Bool :=
  self.speaker_id < other.speaker_id

/-- `Speaker.__le__` (lines 109-110). -/
def Speaker.le (self other : Speaker) : Bool :=
  self.speaker_id ≤ other.speaker_id

/-- `Speaker.__gt__` (lines 112-113). -/
def Speaker.gt (self other : Speaker) : Bool :=
  self.speaker_id > other.speaker_id

/-- `Speaker.__ge__` (lines 115-116).  Faithful to the source, which returns
`self.speaker_id <= other.speaker_id` (not `>=`). -/
def Speaker.ge (self other : Speaker) : Bool :=
  self.speaker_id ≤ other.speaker_id

/-- Python `', '.join(xs)`. -/
def joinComma (xs : List String) : String :=
  String.intercalate ", " xs

/-- Python `'\t' * n`. -/
def tabs (n : Nat) : String :=
  String.join (List.replicate n "\t")

/-- `Speaker.pretty_print` (lines 202-221); `os.linesep` is the newline on the
target platform. -/
def Speaker.pretty_print (self : Speaker) (indentation_level : Nat) : String :=
  let indent := tabs indentation_level
  let nl := "\n"
  indent ++ "<speaker id=\"" ++ self.speaker_id ++ "\">"
  ++ nl ++ indent ++ "\t<abbreviation>" ++ self.abbreviation ++ "</abbreviation>" ++ nl
  ++ indent ++ "\t<sex value=\"" ++ self.sex ++ "\"/>" ++ nl
  ++ indent ++ "\t<languages-used>" ++ joinComma self.languages_used ++ "</languages-used>" ++ nl
  ++ indent ++ "\t<l1>" ++ joinComma self.l1 ++ "</l1>" ++ nl
  ++ indent ++ "\t<l2>" ++ joinComma self.l2 ++ "</l2>" ++ nl
  ++ indent ++ "\t<ud-speaker-information>" ++ self.ud_speaker_information ++ "</ud-speaker-information>" ++ nl
  ++ indent ++ "\t<comment>" ++ self.comment ++ "</comment>" ++ nl
  ++ indent ++ "</speaker>"

/-- `Timepoint` (lines 224-323): a labeled position on the shared timeline. -/
structure Timepoint : Type where
  time_stamp : PyNum
  time_id : TimeId
  type : String
deriving DecidableEq, Repr

/-- `Timepoint.__init__` (lines 246-257): records the stamp, mints `time_id`
from the class counter `Timepoint.running_id` and advances the counter.  The
counter (a Python class attribute) is passed and returned explicitly. -/
def Timepoint.init (running_id : Int) (time_stamp : PyNum) (type : String) :
    Timepoint × Int :=
  ({ time_stamp := time_stamp, time_id := .int running_id, type := type }, running_id + 1)

/-- `Timepoint.__del__` (lines 261-262): decrements the class counter when an
instance is destroyed. -/
def Timepoint.del (running_id : Int) : Int :=
  running_id - 1

/-- `Timepoint.__eq__` (lines 267-268): identifier and stamp must both match. -/
def Timepoint.eq (self other : Timepoint) : Bool :=
  self.time_id = other.time_id && self.time_stamp = other.time_stamp

/-- A sequence of `Timepoint.__init__` calls threaded through the class
counter, starting from counter value `c`: returns the constructed time points
in order together with the final counter. -/
def mintSequence (c : Int) : List (PyNum × String) → List Timepoint × Int
  | [] => ([], c)
  | (ts, ty) :: rest =>
    let p := Timepoint.init c ts ty
    let r := mintSequence p.2 rest
    (p.1 :: r.1, r.2)

/-- `Timepoint.pretty_print` (lines 310-323): the `time` attribute is emitted
only when the stamp differs from the `-1` sentinel, the `type` attribute only
when non-empty. -/
def Timepoint.pretty_print (self : Timepoint) (indentation_level : Nat) : String :=
  let indent := tabs indentation_level
  let rval :=
    if self.time_stamp = .int (-1) then
      indent ++ "<tli id=\"T" ++ self.time_id.render ++ "\""
    else
      indent ++ "<tli id=\"T" ++ self.time_id.render ++ "\" time=\"" ++ self.time_stamp.render ++ "\""
  if self.type.length = 0 then rval ++ "/>"
  else rval ++ " type=\"" ++ self.type ++ "\"/>"

/-- `Event` (lines 326-392): a content span between two time points.  The
Python attribute `end` is spelled `end_` here (`end` is reserved in Lean). -/
structure Event : Type where
  start : Timepoint
  end_ : Timepoint
  content : String
deriving DecidableEq, Repr

/-- `Event.get_start_id` (lines 371-372). -/
def Event.get_start_id (self : Event) : TimeId :=
  self.start.time_id

/-- `Event.get_end_id` (lines 374-375). -/
def Event.get_end_id (self : Event) : TimeId :=
  self.end_.time_id

/-- `Event.pretty_print` (lines 382-392). -/
def Event.pretty_print (self : Event) (indentation_level : Nat) : String :=
  let indent := tabs indentation_level
  indent ++ "<event start=\"T" ++ self.get_start_id.render ++ "\" end=\"T"
  ++ self.get_end_id.render ++ "\">" ++ self.content ++ "</event>"

/-- `Tier` (lines 395-520): an ordered sequence of events with metadata. -/
structure Tier : Type where
  id : String
  speaker : String
  category : String
  type : String
  display_name : String
  event_list : List Event
deriving DecidableEq, Repr

/-- `Tier.__init__` (lines 414-431).  The Python defaults are `speaker=''`,
`category='v'`, `type='t'`, `display_name=''`; every caller in the repository
supplies all arguments explicitly, so they are explicit parameters here. -/
def Tier.init (id speaker category type display_name : String) : Tier :=
  { id := id, speaker := speaker, category := category, type := type,
    display_name := display_name, event_list := [] }

/-- `Tier.is_empty` (lines 504-511). -/
def Tier.is_empty (self : Tier) : Bool :=
  self.event_list.length = 0

/-- `Tier.add_event` (lines 513-520): appends at the end of the event list. -/
def Tier.add_event (self : Tier) (e : Event) : Tier :=
  { self with event_list := self.event_list ++ [e] }

/-- `Tier.pretty_print` (lines 481-500): the `speaker` attribute is emitted
only when the speaker string is non-empty. -/
def Tier.pretty_print (self : Tier) (indentation_level : Nat) : String :=
  let indent := tabs indentation_level
  let rval := indent ++ "<tier id=\"" ++ self.id ++ "\""
    ++ (if self.speaker.length > 0 then " speaker=\"" ++ self.speaker ++ "\"" else "")
    ++ " category=\"" ++ self.category ++ "\" type=\"" ++ self.type
    ++ "\" display-name=\"" ++ self.display_name ++ "\">"
  if self.event_list.length = 0 then rval ++ "</tier>"
  else
    rval ++ "\n"
    ++ String.intercalate "\n" (self.event_list.map (fun e => e.pretty_print (indentation_level + 1)))
    ++ "\n" ++ indent ++ "</tier>"

/-- The `meta_information` dictionary of `ExmaraldaTranscript.__init__`
(lines 591-595): a dictionary with six fixed keys, modelled as a record. -/
structure MetaInformation : Type where
  project_name : String
  transcription_name : String
  referenced_file_url : List String
  ud_meta_information : String
  comment : String
  transcription_convention : String
deriving DecidableEq, Repr

/-- `ExmaraldaTranscript` (lines 523-961): the aggregate document.
`speaker_table`, `timeline` and `tiers` are Python dicts (insertion-ordered,
unique keys), modelled as association lists with `dictSet` semantics. -/
structure ExmaraldaTranscript : Type where
  meta_information : MetaInformation
  speaker_table : List (String × Speaker)
  timeline : List (TimeId × Timepoint)
  tiers : List (String × Tier)
deriving DecidableEq, Repr

/-- `ExmaraldaTranscript.__init__` (lines 574-598): the referenced-file-url
entry starts as the empty list and receives the constructor argument only when
its stripped form is non-empty. -/
def ExmaraldaTranscript.init (project_name transcription_name referenced_file_url
    ud_meta_information comment transcription_convention : String) : ExmaraldaTranscript :=
  { meta_information :=
      { project_name := project_name
        transcription_name := transcription_name
        referenced_file_url :=
          if referenced_file_url.trim.length > 0 then [referenced_file_url] else []
        ud_meta_information := ud_meta_information
        comment := comment
        transcription_convention := transcription_convention }
    speaker_table := []
    timeline := []
    tiers := [] }

/-- `set_project_name` (lines 607-608). -/
def ExmaraldaTranscript.set_project_name (self : ExmaraldaTranscript) (v : String) :
    ExmaraldaTranscript :=
  { self with meta_information := { self.meta_information with project_name := v } }

/-- `set_transcription_name` (lines 610-611). -/
def ExmaraldaTranscript.set_transcription_name (self : ExmaraldaTranscript) (v : String) :
    ExmaraldaTranscript :=
  { self with meta_information := { self.meta_information with transcription_name := v } }

/-- `set_referenced_file_url` (lines 613-614). -/
def ExmaraldaTranscript.set_referenced_file_url (self : ExmaraldaTranscript) (v : String) :
    ExmaraldaTranscript :=
  { self with meta_information := { self.meta_information with referenced_file_url := [v] } }

/-- `add_referenced_file_url` (lines 616-617). -/
def ExmaraldaTranscript.add_referenced_file_url (self : ExmaraldaTranscript) (v : String) :
    ExmaraldaTranscript :=
  { self with meta_information :=
      { self.meta_information with
        referenced_file_url := self.meta_information.referenced_file_url ++ [v] } }

/-- `set_ud_meta_information` (lines 619-620). -/
def ExmaraldaTranscript.set_ud_meta_information (self : ExmaraldaTranscript) (v : String) :
    ExmaraldaTranscript :=
  { self with meta_information := { self.meta_information with ud_meta_information := v } }

/-- `set_comment` (lines 622-623). -/
def ExmaraldaTranscript.set_comment (self : ExmaraldaTranscript) (v : String) :
    ExmaraldaTranscript :=
  { self with meta_information := { self.meta_information with comment := v } }

/-- `set_transcription_convention` (lines 625-626). -/
def ExmaraldaTranscript.set_transcription_convention (self : ExmaraldaTranscript) (v : String) :
    ExmaraldaTranscript :=
  { self with meta_information := { self.meta_information with transcription_convention := v } }

/-- `contains_speaker` (lines 711-720). -/
def ExmaraldaTranscript.contains_speaker (self : ExmaraldaTranscript) (speaker_id : String) : Bool :=
  dictContains self.speaker_table speaker_id

/-- `add_speaker` (lines 650-675): registers a new `Speaker` only when the
identifier is not yet present (first registration wins). -/
def ExmaraldaTranscript.add_speaker (self : ExmaraldaTranscript)
    (speaker_id abbreviation sex : String) (languages_used l1 l2 : StrOrList)
    (ud_speaker_information comment : String) : ExmaraldaTranscript :=
  if ¬ (self.contains_speaker speaker_id) then
    let sp := Speaker.init speaker_id abbreviation sex languages_used l1 l2
      ud_speaker_information comment
    { self with speaker_table := dictSet self.speaker_table speaker_id sp }
  else self

/-- `overwrite_speaker` (lines 677-698): unconditionally replaces the entry. -/
def ExmaraldaTranscript.overwrite_speaker (self : ExmaraldaTranscript)
    (speaker_id abbreviation sex : String) (languages_used l1 l2 : StrOrList)
    (ud_speaker_information comment : String) : ExmaraldaTranscript :=
  let sp := Speaker.init speaker_id abbreviation sex languages_used l1 l2
    ud_speaker_information comment
  { self with speaker_table := dictSet self.speaker_table speaker_id sp }

/-- `get_speaker` (lines 700-709): a dictionary subscript, `KeyError` when
absent. -/
def ExmaraldaTranscript.get_speaker (self : ExmaraldaTranscript) (speaker_id : String) :
    Option Speaker :=
  dictGet? self.speaker_table speaker_id

/-- `contains_tier` (lines 724-733). -/
def ExmaraldaTranscript.contains_tier (self : ExmaraldaTranscript) (tier_id : String) : Bool :=
  dictContains self.tiers tier_id

/-- `add_tier` (lines 736-751): inserts a fresh `Tier` only when `tier_id` is
not already a key; all five `Tier` constructor arguments are passed
explicitly, so `Tier.__init__`'s own `'v'`/`'t'` defaults are bypassed. -/
def ExmaraldaTranscript.add_tier (self : ExmaraldaTranscript)
    (tier_id speaker tier_category tier_type display_name : String) : ExmaraldaTranscript :=
  if ¬ (dictContains self.tiers tier_id) then
    let tr := Tier.init tier_id speaker tier_category tier_type display_name
    { self with tiers := dictSet self.tiers tier_id tr }
  else self

/-- `get_tier` (lines 753-762): a dictionary subscript, `KeyError` when
absent. -/
def ExmaraldaTranscript.get_tier (self : ExmaraldaTranscript) (tier_id : String) : Option Tier :=
  dictGet? self.tiers tier_id

/-- `add_event` (lines 764-781): when `tier_id` is a known tier, append the
event to that tier and insert each endpoint time point into the timeline only
when its identifier is absent; otherwise leave the document unchanged and
print the tier keys (returned here as the diagnostic component). -/
def ExmaraldaTranscript.add_event (self : ExmaraldaTranscript) (event : Event)
    (tier_id : String) : ExmaraldaTranscript × Option (List String) :=
  if dictContains self.tiers tier_id then
    let tiers' := self.tiers.map (fun p => if p.1 = tier_id then (p.1, p.2.add_event event) else p)
    let tl1 :=
      if dictContains self.timeline event.start.time_id then self.timeline
      else self.timeline ++ [(event.start.time_id, event.start)]
    let tl2 :=
      if dictContains tl1 event.end_.time_id then tl1
      else tl1 ++ [(event.end_.time_id, event.end_)]
    ({ self with tiers := tiers', timeline := tl2 }, none)
  else
    (self, some (self.tiers.map Prod.fst))

/-- The key order in which `print_speaker_table` (line 820) walks the speaker
table: Python `sorted(self.speaker_table.keys())`, ascending lexicographic
string order. -/
def ExmaraldaTranscript.speaker_print_order (self : ExmaraldaTranscript) : List String :=
  (self.speaker_table.map Prod.fst).mergeSort

/-- `print_speaker_table` (lines 806-822): an empty registry prints an empty
element; otherwise one speaker block per identifier in sorted order.  The
subscript `self.speaker_table[speaker_id]` always succeeds in Python because
the identifiers come from the dictionary itself; the unreachable `none` branch
renders nothing. -/
def ExmaraldaTranscript.print_speaker_table (self : ExmaraldaTranscript)
    (indentation_level : Nat) : String :=
  let indent := tabs indentation_level
  let rval := indent ++ "<speakertable>"
  if self.speaker_table.length = 0 then rval ++ "</speakertable>"
  else
    (self.speaker_print_order.foldl
      (fun acc sid =>
        acc ++ (match dictGet? self.speaker_table sid with
                | some sp => sp.pretty_print (indentation_level + 1)
                | none => "") ++ "\n")
      (rval ++ "\n"))
    ++ indent ++ "</speakertable>"

/-- `print_meta_information` (lines 785-804). -/
def ExmaraldaTranscript.print_meta_information (self : ExmaraldaTranscript)
    (indentation_level : Nat) : String :=
  let indent := tabs indentation_level
  let m := self.meta_information
  indent ++ "<meta-information>"
  ++ "\n" ++ indent ++ "\t<project-name>" ++ m.project_name ++ "</project-name>\n"
  ++ indent ++ "\t<transcription-name>" ++ m.transcription_name ++ "</transcription-name>\n"
  ++ String.join (m.referenced_file_url.map
      (fun u => indent ++ "\t<referenced-file url=\"" ++ u ++ "\"/>\n"))
  ++ indent ++ "\t<ud-meta-information>" ++ m.ud_meta_information ++ "</ud-meta-information>\n"
  ++ indent ++ "\t<comment>" ++ m.comment ++ "</comment>\n"
  ++ indent ++ "\t<transcription-convention>" ++ m.transcription_convention
  ++ "</transcription-convention>\n"
  ++ indent ++ "</meta-information>"

/-- `print_head` (lines 824-838). -/
def ExmaraldaTranscript.print_head (self : ExmaraldaTranscript)
    (indentation_level : Nat) : String :=
  let indent := tabs indentation_level
  indent ++ "<head>"
  ++ "\n" ++ self.print_meta_information (indentation_level + 1) ++ "\n"
  ++ "\n" ++ self.print_speaker_table (indentation_level + 1) ++ "\n"
  ++ indent ++ "</head>"

/-- `print_timeline` (lines 840-855): the timeline dictionary is iterated in
insertion order; iterating the keys and subscripting is iterating the entries
because dictionary keys are unique. -/
def ExmaraldaTranscript.print_timeline (self : ExmaraldaTranscript)
    (indentation_level : Nat) : String :=
  let indent := tabs indentation_level
  let rval := indent ++ "<common-timeline>"
  if self.timeline.length = 0 then rval ++ "</common-timeline>"
  else
    rval ++ "\n"
    ++ String.intercalate "\n"
        (self.timeline.map (fun p => p.2.pretty_print (indentation_level + 1)))
    ++ "\n" ++ indent ++ "</common-timeline>"

/-- `print_body` (lines 857-871): timeline block, then the tier blocks in the
tier dictionary's insertion order (keys are unique, see `print_timeline`). -/
def ExmaraldaTranscript.print_body (self : ExmaraldaTranscript)
    (indentation_level : Nat) : String :=
  let indent := tabs indentation_level
  indent ++ "<basic-body>"
  ++ "\n" ++ self.print_timeline (indentation_level + 1)
  ++ "\n" ++ String.intercalate "\n"
      (self.tiers.map (fun p => p.2.pretty_print (indentation_level + 1)))
  ++ "\n" ++ indent ++ "</basic-body>"

/-- The class attribute `ExmaraldaTranscript.preface` (line 572). -/
def ExmaraldaTranscript.preface : String :=
  "<?xml version=\"1.0\" encoding=\"UTF-8\"?>\n<!-- (c) http://www.rrz.uni-hamburg.de/exmaralda -->\n"

/-- `print_transcript` (lines 873-890). -/
def ExmaraldaTranscript.print_transcript (self : ExmaraldaTranscript)
    (indentation_level : Nat) (with_preface : Bool) : String :=
  let indent := tabs indentation_level
  (if with_preface then ExmaraldaTranscript.preface else "")
  ++ indent ++ "<basic-transcription>\n"
  ++ self.print_head (indentation_level + 1) ++ "\n"
  ++ self.print_body (indentation_level + 1) ++ "\n"
  ++ indent ++ "</basic-transcription>\n"

/-- An XML element as `xml.etree.ElementTree` presents it to `load`: tag,
attribute dictionary, element text (`none` when the element has no text, in
particular for `<e></e>`), and child elements.  Surrounding whitespace that a
real parse stores on container elements' `text`/`tail` is not observed by
`load` and is not modelled. -/
inductive XmlElem : Type where
  | mk (tag : String) (attrib : List (String × String)) (text : Option String)
      (children : List XmlElem)

/-- The tag of an element. -/
def XmlElem.tag : XmlElem → String
  | .mk t _ _ _ => t

/-- The attribute dictionary of an element. -/
def XmlElem.attrib : XmlElem → List (String × String)
  | .mk _ a _ _ => a

/-- The text of an element. -/
def XmlElem.text : XmlElem → Option String
  | .mk _ _ tx _ => tx

/-- The children of an element. -/
def XmlElem.children : XmlElem → List XmlElem
  | .mk _ _ _ ch => ch

mutual

/-- `ElementTree.Element.iter(tag)`: all elements of the subtree (the element
itself included) whose tag equals `tag`, in document (depth-first) order. -/
def XmlElem.iterTag : XmlElem → String → List XmlElem
  | .mk t a tx ch, tag =>
    (if t = tag then [XmlElem.mk t a tx ch] else []) ++ XmlElem.iterTagList ch tag

/-- `iterTag` mapped over a list of sibling elements. -/
def XmlElem.iterTagList : List XmlElem → String → List XmlElem
  | [], _ => []
  | c :: cs, tag => XmlElem.iterTag c tag ++ XmlElem.iterTagList cs tag

end

/-- A fallible attribute subscript `e.attrib[k]` (Python `KeyError`). -/
def pyAttr (e : XmlElem) (k : String) : Except String String :=
  match dictGet? e.attrib k with
  | some v => Except.ok v
  | none => Except.error ("KeyError: " ++ k)

/-- The pattern `e.attrib[k] if k in e.attrib.keys() else d`. -/
def pyAttrD (e : XmlElem) (k d : String) : String :=
  (dictGet? e.attrib k).getD d

/-- The pattern `c.text.strip() if c.text is not None else ''` used for the
metadata elements in `load`. -/
def pyTextStrip (e : XmlElem) : String :=
  match e.text with
  | some s => s.trim
  | none => ""

/-- The mutable local variables of the speaker-loading loop of `load`
(lines 911-917). -/
structure SpeakerLoad : Type where
  abbr : String
  sex : String
  lang : List String
  l1 : List String
  l2 : List String
  comment : String
deriving DecidableEq, Repr

/-- One iteration of the speaker-children loop of `load` (lines 918-931).
The Python guard on the sex branch, `'value' in c_child.attrib.keys() is not
None`, is a chained comparison equivalent to membership of `'value'` in the
attribute keys. -/
def loadSpeakerChild (st : SpeakerLoad) (c : XmlElem) : SpeakerLoad :=
  let st := if c.tag = "abbreviation" ∧ c.text.isSome then
    { st with abbr := c.text.getD "" } else st
  let st := if c.tag = "sex" ∧ dictContains c.attrib "value" then
    { st with sex := pyAttrD c "value" "" } else st
  let st := if c.tag = "l1" ∧ c.text.isSome then
    { st with l1 := st.l1 ++ [c.text.getD ""] } else st
  let st := if c.tag = "l2" ∧ c.text.isSome then
    { st with l2 := st.l2 ++ [c.text.getD ""] } else st
  let st := if c.tag = "comment" ∧ c.text.isSome then
    { st with comment := c.text.getD "" } else st
  let st := if c.tag = "languages-used" ∧ c.text.isSome then
    { st with lang := st.lang ++ [c.text.getD ""] } else st
  st

/-- `ExmaraldaTranscript.load` (lines 894-961), over the element tree of the
input document.  Faithful to the source, including:
* the metadata loops iterate the tags `'transcription-convention>'` and
  `'<comment>'` exactly as written in the source (lines 905-908);
* the timeline loop subscripts `attrib['time']` and `attrib['id']`
  unconditionally (lines 936-940) — `KeyError` when absent;
* a `Timepoint` constructed while loading has its allocator-minted identifier
  immediately overwritten by the string slice `attrib['id'][1:]` (line 939),
  so the minted value is unobservable and the allocator counter is not
  threaded through;
* non-`event` children of a tier print a diagnostic and are skipped
  (lines 951-953), and the diagnostic that `add_event` prints for an unknown
  tier is discarded (line 781 prints, returns nothing). -/
def ExmaraldaTranscript.load (root : XmlElem) : Except String ExmaraldaTranscript := do
  let t := ExmaraldaTranscript.init "" "" "" "" "" ""
  -- load meta information (lines 901-908)
  let t := (root.iterTag "project-name").foldl
    (fun t c => t.set_project_name (pyTextStrip c)) t
  let t := (root.iterTag "transcription-name").foldl
    (fun t c => t.set_transcription_name (pyTextStrip c)) t
  let t := (root.iterTag "transcription-convention>").foldl
    (fun t c => t.set_transcription_convention (pyTextStrip c)) t
  let t := (root.iterTag "<comment>").foldl
    (fun t c => t.set_comment (pyTextStrip c)) t
  -- load speaker information (lines 911-933)
  let t ← (root.iterTag "speaker").foldlM
    (fun t spk => do
      let st := spk.children.foldl loadSpeakerChild
        { abbr := "", sex := "", lang := [], l1 := [], l2 := [], comment := "" }
      let sid ← pyAttr spk "id"
      return t.add_speaker sid st.abbr st.sex (.list st.lang) (.list st.l1) (.list st.l2)
        "" st.comment)
    t
  -- load timelines (lines 936-940)
  let t ← (root.iterTag "tli").foldlM
    (fun t tli => do
      let timeVal ← pyAttr tli "time"
      let idVal ← pyAttr tli "id"
      let tp : Timepoint := { time_stamp := .str timeVal, time_id := .str (idVal.drop 1), type := "" }
      return { t with timeline := dictSet t.timeline tp.time_id tp })
    t
  -- load tiers and events (lines 943-960)
  (root.iterTag "tier").foldlM
    (fun t tierX => do
      let c_tier_id := pyAttrD tierX "id" ""
      let t := t.add_tier c_tier_id (pyAttrD tierX "speaker" "")
        (pyAttrD tierX "category" "") (pyAttrD tierX "type" "")
        (pyAttrD tierX "display-name" "")
      tierX.children.foldlM
        (fun t ev => do
          if ev.tag ≠ "event" then
            return t
          else
            let s ← pyAttr ev "start"
            let e ← pyAttr ev "end"
            let tp1 : Timepoint := { time_stamp := .int (-1), time_id := .str (s.drop 1), type := "" }
            let tp2 : Timepoint := { time_stamp := .int (-1), time_id := .str (e.drop 1), type := "" }
            return (t.add_event { start := tp1, end_ := tp2, content := ev.text.getD "" } c_tier_id).1)
        t)
    t

/-- Element text as `ElementTree` reports it after parsing serialized output:
`none` for an element written with empty content. -/
def textOf (s : String) : Option String :=
  if s.isEmpty then none else some s

/-- The element tree a conforming XML parse of `Speaker.pretty_print` output
yields: tag, attributes and text exactly as the print routine writes them
(lines 202-221). -/
def Speaker.toXmlTree (self : Speaker) : XmlElem :=
  .mk "speaker" [("id", self.speaker_id)] none
    [ .mk "abbreviation" [] (textOf self.abbreviation) [],
      .mk "sex" [("value", self.sex)] none [],
      .mk "languages-used" [] (textOf (joinComma self.languages_used)) [],
      .mk "l1" [] (textOf (joinComma self.l1)) [],
      .mk "l2" [] (textOf (joinComma self.l2)) [],
      .mk "ud-speaker-information" [] (textOf self.ud_speaker_information) [],
      .mk "comment" [] (textOf self.comment) [] ]

/-- The element tree of `Timepoint.pretty_print` output (lines 310-323): the
`time` attribute only when the stamp is not the `-1` sentinel, the `type`
attribute only when non-empty. -/
def Timepoint.toXmlTree (self : Timepoint) : XmlElem :=
  .mk "tli"
    ([("id", "T" ++ self.time_id.render)]
      ++ (if self.time_stamp = .int (-1) then [] else [("time", self.time_stamp.render)])
      ++ (if self.type.length = 0 then [] else [("type", self.type)]))
    none []

/-- The element tree of `Event.pretty_print` output (lines 382-392). -/
def Event.toXmlTree (self : Event) : XmlElem :=
  .mk "event"
    [("start", "T" ++ self.get_start_id.render), ("end", "T" ++ self.get_end_id.render)]
    (textOf self.content) []

/-- The element tree of `Tier.pretty_print` output (lines 481-500): the
`speaker` attribute only when non-empty. -/
def Tier.toXmlTree (self : Tier) : XmlElem :=
  .mk "tier"
    ([("id", self.id)]
      ++ (if self.speaker.length > 0 then [("speaker", self.speaker)] else [])
      ++ [("category", self.category), ("type", self.type), ("display-name", self.display_name)])
    none (self.event_list.map Event.toXmlTree)

/-- The element tree of `print_meta_information` output (lines 785-804). -/
def ExmaraldaTranscript.metaTree (self : ExmaraldaTranscript) : XmlElem :=
  let m := self.meta_information
  .mk "meta-information" [] none
    ([ .mk "project-name" [] (textOf m.project_name) [],
       .mk "transcription-name" [] (textOf m.transcription_name) [] ]
      ++ m.referenced_file_url.map (fun u => XmlElem.mk "referenced-file" [("url", u)] none [])
      ++ [ .mk "ud-meta-information" [] (textOf m.ud_meta_information) [],
           .mk "comment" [] (textOf m.comment) [],
           .mk "transcription-convention" [] (textOf m.transcription_convention) [] ])

/-- The element tree of `print_transcript` output (lines 806-890): head with
metadata and the speaker table in sorted key order, body with the timeline
block followed by the tier blocks in insertion order.  This is the serializer
observed through a conforming XML parse of its output (the string form adds
only inter-element whitespace, which `load` never reads). -/
def ExmaraldaTranscript.toXmlTree (self : ExmaraldaTranscript) : XmlElem :=
  .mk "basic-transcription" [] none
    [ .mk "head" [] none
        [ self.metaTree,
          .mk "speakertable" [] none
            (self.speaker_print_order.map
              (fun sid =>
                match dictGet? self.speaker_table sid with
                | some sp => sp.toXmlTree
                | none => XmlElem.mk "speaker" [] none [])) ],
      .mk "basic-body" [] none
        ([XmlElem.mk "common-timeline" [] none
            (self.timeline.map (fun p => p.2.toXmlTree))]
          ++ self.tiers.map (fun p => p.2.toXmlTree)) ]

/-- A transcript whose only non-default datum is the metadata comment
(counterexample data for the round-trip claim). -/
def exDocComment : ExmaraldaTranscript :=
  (ExmaraldaTranscript.init "" "" "" "" "" "").set_comment "c"

/-- An input document whose `common-timeline` holds one `tli` without a `time`
attribute (counterexample data for the defaulting claim). -/
def exTliNoTime : XmlElem :=
  .mk "basic-transcription" [] none
    [ .mk "basic-body" [] none
        [ .mk "common-timeline" [] none [ .mk "tli" [("id", "T0")] none [] ] ] ]

/-- An input document carrying a `comment` metadata element with text
(counterexample data for the metadata-parsing claim). -/
def exCommentTree : XmlElem :=
  .mk "basic-transcription" [] none
    [ .mk "head" [] none
        [ .mk "meta-information" [] none
            [ .mk "comment" [] (some "hello") [] ] ] ]

/-- A speaker with identifier `"a"`. -/
def exSpeakerA : Speaker :=
  Speaker.init "a" "" "" (.str "") (.str "") (.str "") "" ""

/-- A speaker with identifier `"b"`. -/
def exSpeakerB : Speaker :=
  Speaker.init "b" "" "" (.str "") (.str "") (.str "") "" ""

/-- A transcript with a single registered tier `"t1"` (witness data). -/
def exDocOneTier : ExmaraldaTranscript :=
  (ExmaraldaTranscript.init "" "" "" "" "" "").add_tier "t1" "" "" "" ""

/-- A concrete event between the allocator's first two time points
(witness data). -/
def exEventHallo : Event :=
  { start := { time_stamp := .int 0, time_id := .int 0, type := "" }
    end_ := { time_stamp := .int 1, time_id := .int 1, type := "" }
    content := "Hallo" }

/-- A transcript registering speaker `"a"` first, then `"b"` (witness data). -/
def exDocAB : ExmaraldaTranscript :=
  ((ExmaraldaTranscript.init "" "" "" "" "" "").add_speaker "a" "" ""
    (.str "") (.str "") (.str "") "" "").add_speaker "b" "" "" (.str "") (.str "") (.str "") "" ""

/-- A transcript registering speaker `"b"` first, then `"a"` (witness data). -/
def exDocBA : ExmaraldaTranscript :=
  ((ExmaraldaTranscript.init "" "" "" "" "" "").add_speaker "b" "" ""
    (.str "") (.str "") (.str "") "" "").add_speaker "a" "" "" (.str "") (.str "") (.str "") "" ""

/-- The document invariant of the specification: every event reachable from
any tier has both endpoint identifiers present as keys of the timeline. -/
def timelineInvariant (t : ExmaraldaTranscript) : Prop :=
  ∀ p ∈ t.tiers, ∀ e ∈ p.2.event_list,
    dictContains t.timeline e.start.time_id = true ∧
    dictContains t.timeline e.end_.time_id = true

/-! ## Helper lemmas about the dictionary model -/

theorem dictContains_iff {κ β : Type} [DecidableEq κ] (l : List (κ × β)) (k : κ) :
    dictContains l k = true ↔ ∃ v, (k, v) ∈ l := by
  simp only [dictContains, List.any_eq_true, decide_eq_true_eq]
  constructor
  · rintro ⟨a, ha, hk⟩
    exact ⟨a.2, by rwa [← hk, Prod.mk.eta]⟩
  · rintro ⟨v, hv⟩
    exact ⟨(k, v), hv, rfl⟩

theorem dictGet?_map_update {κ β : Type} [DecidableEq κ] (l : List (κ × β)) (k : κ) (f : β → β) :
    dictGet? (l.map (fun p => if p.1 = k then (p.1, f p.2) else p)) k = (dictGet? l k).map f := by
  induction l with
  | nil => rfl
  | cons p rest ih =>
    by_cases h : p.1 = k
    · simp [dictGet?, h]
    · simpa [dictGet?, h] using ih

theorem dictContains_append {κ β : Type} [DecidableEq κ] (l m : List (κ × β)) (k : κ) :
    dictContains (l ++ m) k = (dictContains l k || dictContains m k) := by
  simp [dictContains]

theorem dictGet?_append_left {κ β : Type} [DecidableEq κ] (l m : List (κ × β)) (k : κ)
    (h : dictContains l k = true) : dictGet? (l ++ m) k = dictGet? l k := by
  induction l with
  | nil => simp [dictContains] at h
  | cons p rest ih =>
    by_cases hp : p.1 = k
    · simp [dictGet?, hp]
    · have h2 : dictContains rest k = true := by
        rcases (dictContains_iff _ _).mp h with ⟨v, hv⟩
        rcases List.mem_cons.mp hv with h3 | h3
        · exact absurd (congrArg Prod.fst h3.symm) hp
        · exact (dictContains_iff _ _).mpr ⟨v, h3⟩
      simpa [dictGet?, hp] using ih h2

theorem dictContains_of_get?_eq_some {κ β : Type} [DecidableEq κ] {l : List (κ × β)} {k : κ}
    {v : β} (h : dictGet? l k = some v) : dictContains l k = true := by
  cases hf : l.find? (fun p => p.1 = k) with
  | none => simp [dictGet?, hf] at h
  | some a =>
    have hpa : a.1 = k := by simpa using List.find?_some hf
    have hmem : a ∈ l := List.mem_of_find?_eq_some hf
    exact (dictContains_iff _ _).mpr ⟨a.2, by rwa [← hpa, Prod.mk.eta]⟩

theorem dictGet?_append_singleton_self {κ β : Type} [DecidableEq κ] (l : List (κ × β)) (k : κ)
    (v : β) (h : dictContains l k = false) : dictGet? (l ++ [(k, v)]) k = some v := by
  induction l with
  | nil => simp [dictGet?]
  | cons p rest ih =>
    simp only [dictContains, List.any_cons, Bool.or_eq_false_iff, decide_eq_false_iff_not] at h
    obtain ⟨h1, h2⟩ := h
    have h2' : dictContains rest k = false := h2
    simpa [dictGet?, h1] using ih h2'

theorem dictContains_mapFst {κ β : Type} [DecidableEq κ] (l : List (κ × β)) (k : κ)
    (g : κ × β → κ × β) (hg : ∀ p, (g p).1 = p.1) :
    dictContains (l.map g) k = dictContains l k := by
  simp only [dictContains, List.any_map]
  have hfun : ((fun (p : κ × β) => decide (p.1 = k)) ∘ g) = fun p => decide (p.1 = k) := by
    funext p
    simp [Function.comp, hg p]
  rw [hfun]

theorem dictContains_append_singleton {κ β : Type} [DecidableEq κ] (l : List (κ × β))
    (k k2 : κ) (v : β) (h : dictContains (l ++ [(k2, v)]) k = true) :
    dictContains l k = true ∨ k = k2 := by
  rw [dictContains_append] at h
  rcases Bool.or_eq_true_iff.mp h with h | h
  · exact Or.inl h
  · right
    rcases (dictContains_iff _ _).mp h with ⟨w, hw⟩
    rcases List.mem_singleton.mp hw with h3
    exact congrArg Prod.fst h3

/-! ## Lemmas about the insert-only-if-absent timeline update of `add_event` -/

theorem ensure_contains_self {κ β : Type} [DecidableEq κ] (tl : List (κ × β)) (k : κ) (v : β) :
    dictContains (if dictContains tl k then tl else tl ++ [(k, v)]) k = true := by
  by_cases h : dictContains tl k
  · simp [h]
  · simp only [h, if_false, Bool.false_eq_true]
    rw [dictContains_append]
    simp [dictContains]

theorem ensure_contains_mono {κ β : Type} [DecidableEq κ] (tl : List (κ × β)) (k k2 : κ) (v : β)
    (h : dictContains tl k2 = true) :
    dictContains (if dictContains tl k then tl else tl ++ [(k, v)]) k2 = true := by
  by_cases hc : dictContains tl k
  · simpa [hc] using h
  · simp only [hc, Bool.false_eq_true, if_false]
    rw [dictContains_append, h]
    rfl

theorem ensure_get_preserve {κ β : Type} [DecidableEq κ] (tl : List (κ × β)) (k k2 : κ) (v : β)
    (h : dictContains tl k2 = true) :
    dictGet? (if dictContains tl k then tl else tl ++ [(k, v)]) k2 = dictGet? tl k2 := by
  by_cases hc : dictContains tl k
  · simp [hc]
  · simp only [hc, Bool.false_eq_true, if_false]
    exact dictGet?_append_left tl [(k, v)] k2 h

theorem ensure_new_keys {κ β : Type} [DecidableEq κ] (tl : List (κ × β)) (k k2 : κ) (v : β)
    (h : dictContains (if dictContains tl k then tl else tl ++ [(k, v)]) k2 = true) :
    dictContains tl k2 = true ∨ k2 = k := by
  by_cases hc : dictContains tl k
  · rw [if_pos hc] at h
    exact Or.inl h
  · rw [if_neg hc] at h
    exact dictContains_append_singleton tl k2 k v h

theorem ensure_get_fresh {κ β : Type} [DecidableEq κ] (tl : List (κ × β)) (k : κ) (v : β)
    (h : dictContains tl k = false) :
    dictGet? (if dictContains tl k then tl else tl ++ [(k, v)]) k = some v := by
  rw [if_neg (by simp [h])]
  exact dictGet?_append_singleton_self tl k v h

/-! ## Claim theorems -/

/-- Claim C4: for every document state in which `tier_id` is a known tier,
`add_event` appends the event at the end of that tier's ordered event
sequence, ensures both endpoint time points are present in the timeline keyed
by their identifiers, inserts an endpoint only when its identifier is absent,
never overwrites an existing timeline entry, and preserves the invariant that
every event reachable from any tier has both endpoint identifiers present as
timeline keys. -/
theorem add_event_known_tier_spec (t : ExmaraldaTranscript) (e : Event) (tid : String)
    (tr : Tier) (hget : dictGet? t.tiers tid = some tr) :
    dictGet? (t.add_event e tid).1.tiers tid =
      some { tr with event_list := tr.event_list ++ [e] } ∧
    dictContains (t.add_event e tid).1.timeline e.start.time_id = true ∧
    dictContains (t.add_event e tid).1.timeline e.end_.time_id = true ∧
    (∀ k, dictContains t.timeline k = true →
      dictGet? (t.add_event e tid).1.timeline k = dictGet? t.timeline k) ∧
    (∀ k, dictContains (t.add_event e tid).1.timeline k = true →
      dictContains t.timeline k = true ∨ k = e.start.time_id ∨ k = e.end_.time_id) ∧
    (dictContains t.timeline e.start.time_id = false →
      dictGet? (t.add_event e tid).1.timeline e.start.time_id = some e.start) ∧
    (timelineInvariant t → timelineInvariant (t.add_event e tid).1) := by
  have hc : dictContains t.tiers tid = true := dictContains_of_get?_eq_some hget
  have hres : (t.add_event e tid).1 =
      { t with
        tiers := t.tiers.map (fun p => if p.1 = tid then (p.1, p.2.add_event e) else p),
        timeline :=
          if dictContains
              (if dictContains t.timeline e.start.time_id then t.timeline
                else t.timeline ++ [(e.start.time_id, e.start)]) e.end_.time_id then
            (if dictContains t.timeline e.start.time_id then t.timeline
              else t.timeline ++ [(e.start.time_id, e.start)])
          else
            (if dictContains t.timeline e.start.time_id then t.timeline
              else t.timeline ++ [(e.start.time_id, e.start)]) ++ [(e.end_.time_id, e.end_)] } := by
    simp [ExmaraldaTranscript.add_event, hc]
  rw [hres]
  set s := e.start.time_id with hs
  set en := e.end_.time_id with hen
  set tl1 := if dictContains t.timeline s then t.timeline else t.timeline ++ [(s, e.start)]
    with htl1
  have hstl1 : dictContains tl1 s = true := ensure_contains_self t.timeline s e.start
  refine ⟨?_, ?_, ?_, ?_, ?_, ?_, ?_⟩
  · show dictGet? (t.tiers.map (fun p => if p.1 = tid then (p.1, p.2.add_event e) else p)) tid = _
    rw [dictGet?_map_update t.tiers tid (fun v => v.add_event e), hget]
    rfl
  · exact ensure_contains_mono tl1 en s e.end_ hstl1
  · exact ensure_contains_self tl1 en e.end_
  · intro k hk
    have hk1 : dictContains tl1 k = true := ensure_contains_mono t.timeline s k e.start hk
    show dictGet? (if dictContains tl1 en then tl1 else tl1 ++ [(en, e.end_)]) k = _
    rw [ensure_get_preserve tl1 en k e.end_ hk1]
    exact ensure_get_preserve t.timeline s k e.start hk
  · intro k hk
    rcases ensure_new_keys tl1 en k e.end_ hk with hk1 | hk1
    · rcases ensure_new_keys t.timeline s k e.start hk1 with hk2 | hk2
      · exact Or.inl hk2
      · exact Or.inr (Or.inl hk2)
    · exact Or.inr (Or.inr hk1)
  · intro hfresh
    have hg1 : dictGet? tl1 s = some e.start := ensure_get_fresh t.timeline s e.start hfresh
    show dictGet? (if dictContains tl1 en then tl1 else tl1 ++ [(en, e.end_)]) s = _
    rw [ensure_get_preserve tl1 en s e.end_ (dictContains_of_get?_eq_some hg1)]
    exact hg1
  · intro hinv p2 hp2 ev hev
    have hp2' : p2 ∈ t.tiers.map (fun p => if p.1 = tid then (p.1, p.2.add_event e) else p) := hp2
    rcases List.mem_map.mp hp2' with ⟨p, hp, hupd⟩
    by_cases hpt : p.1 = tid
    · rw [if_pos hpt] at hupd
      subst hupd
      simp only [Tier.add_event, List.mem_append, List.mem_singleton] at hev
      rcases hev with hev | hev2
      · have hold := hinv p hp ev hev
        exact ⟨ensure_contains_mono tl1 en ev.start.time_id e.end_
            (ensure_contains_mono t.timeline s ev.start.time_id e.start hold.1),
          ensure_contains_mono tl1 en ev.end_.time_id e.end_
            (ensure_contains_mono t.timeline s ev.end_.time_id e.start hold.2)⟩
      · rw [hev2]
        exact ⟨ensure_contains_mono tl1 en s e.end_ hstl1, ensure_contains_self tl1 en e.end_⟩
    · rw [if_neg hpt] at hupd
      subst hupd
      have hold := hinv p hp ev hev
      exact ⟨ensure_contains_mono tl1 en ev.start.time_id e.end_
          (ensure_contains_mono t.timeline s ev.start.time_id e.start hold.1),
        ensure_contains_mono tl1 en ev.end_.time_id e.end_
          (ensure_contains_mono t.timeline s ev.end_.time_id e.start hold.2)⟩

/-- Witness for claim C4 at a concrete document: after adding `exEventHallo`
to the registered tier `"t1"`, both endpoint identifiers are timeline keys. -/
theorem add_event_known_tier_witness :
    dictContains (exDocOneTier.add_event exEventHallo "t1").1.timeline (TimeId.int 0) = true ∧
    dictContains (exDocOneTier.add_event exEventHallo "t1").1.timeline (TimeId.int 1) = true := by
  have h := add_event_known_tier_spec exDocOneTier exEventHallo "t1"
    (Tier.init "t1" "" "" "" "") rfl
  exact ⟨h.2.1, h.2.2.1⟩

/-- Claim C3: for every document state and every event, `add_event` with an
unknown tier identifier leaves the document (tier collection and timeline
included) unchanged, produces a diagnostic (the printed tier-key listing) and
raises no exception (the operation is total). -/
theorem add_event_unknown_tier_spec (t : ExmaraldaTranscript) (e : Event) (tid : String)
    (h : dictContains t.tiers tid = false) :
    t.add_event e tid = (t, some (t.tiers.map Prod.fst)) := by
  simp [ExmaraldaTranscript.add_event, h]

/-- Witness for claim C3 at a concrete document and unknown tier `"nope"`. -/
theorem add_event_unknown_tier_witness :
    exDocOneTier.add_event exEventHallo "nope" =
      (exDocOneTier, some (exDocOneTier.tiers.map Prod.fst)) :=
  add_event_unknown_tier_spec exDocOneTier exEventHallo "nope" (by decide)

theorem mintSequence_length (c : Int) (args : List (PyNum × String)) :
    (mintSequence c args).1.length = args.length := by
  induction args generalizing c with
  | nil => rfl
  | cons a rest ih =>
    simp [mintSequence, Timepoint.init, ih]

theorem mintSequence_get (args : List (PyNum × String)) (c : Int) (i : Nat)
    (h : i < (mintSequence c args).1.length) :
    ((mintSequence c args).1.get ⟨i, h⟩).time_id = .int (c + i) := by
  induction args generalizing c i with
  | nil => simp [mintSequence] at h
  | cons a rest ih =>
    cases i with
    | zero => simp [mintSequence, Timepoint.init]
    | succ n =>
      have h2 : n < (mintSequence (c + 1) rest).1.length := by
        have h3 := h
        simp [mintSequence, Timepoint.init] at h3
        omega
      have h3 := ih (c + 1) n h2
      have h4 : ((mintSequence c (a :: rest)).1.get ⟨n + 1, h⟩) =
          ((mintSequence (c + 1) rest).1.get ⟨n, h2⟩) := by
        simp [mintSequence, Timepoint.init]
      rw [h4, h3]
      congr 1
      omega

/-- Claim C5: starting from the counter's initial value `0`, every sequence of
`Timepoint` constructions succeeds and mints identifiers that are non-negative
integers, each strictly greater than every identifier minted before it. -/
theorem timepoint_allocation_monotone (args : List (PyNum × String)) :
    (mintSequence 0 args).1.length = args.length ∧
    ∀ i j (hi : i < (mintSequence 0 args).1.length)
      (hj : j < (mintSequence 0 args).1.length), i < j →
      ∃ a b : Int, ((mintSequence 0 args).1.get ⟨i, hi⟩).time_id = .int a ∧
        ((mintSequence 0 args).1.get ⟨j, hj⟩).time_id = .int b ∧ 0 ≤ a ∧ a < b := by
  refine ⟨mintSequence_length 0 args, ?_⟩
  intro i j hi hj hij
  refine ⟨i, j, ?_, ?_, ?_, ?_⟩
  · simpa using mintSequence_get args 0 i hi
  · simpa using mintSequence_get args 0 j hj
  · exact_mod_cast Nat.zero_le i
  · exact_mod_cast hij

/-- Witness for claim C5 on a concrete two-construction sequence. -/
theorem timepoint_allocation_monotone_witness :
    ∃ a b : Int,
      ((mintSequence 0 [(PyNum.int 0, ""), (PyNum.int 1, "")]).1.get
        ⟨0, by decide⟩).time_id = .int a ∧
      ((mintSequence 0 [(PyNum.int 0, ""), (PyNum.int 1, "")]).1.get
        ⟨1, by decide⟩).time_id = .int b ∧ 0 ≤ a ∧ a < b :=
  (timepoint_allocation_monotone [(PyNum.int 0, ""), (PyNum.int 1, "")]).2 0 1
    (by decide) (by decide) (by decide)

theorem dictGet?_isSome_eq_contains {κ β : Type} [DecidableEq κ] (l : List (κ × β)) (k : κ) :
    (dictGet? l k).isSome = dictContains l k := by
  induction l with
  | nil => rfl
  | cons p rest ih =>
    by_cases hp : p.1 = k
    · simp [dictGet?, dictContains, hp]
    · simpa [dictGet?, dictContains, hp] using ih

theorem dictGet?_eq_some_iff_of_nodup {κ β : Type} [DecidableEq κ] {l : List (κ × β)}
    (hnd : (l.map Prod.fst).Nodup) (k : κ) (v : β) :
    dictGet? l k = some v ↔ (k, v) ∈ l := by
  induction l with
  | nil => simp [dictGet?]
  | cons p rest ih =>
    have hnd2 : (rest.map Prod.fst).Nodup := (List.nodup_cons.mp (by simpa using hnd)).2
    have hnotin : p.1 ∉ rest.map Prod.fst := (List.nodup_cons.mp (by simpa using hnd)).1
    by_cases hp : p.1 = k
    · constructor
      · intro h
        have hv : p.2 = v := by simpa [dictGet?, hp] using h
        exact List.mem_cons.mpr (Or.inl (by rw [← hp, ← hv]))
      · intro h
        rcases List.mem_cons.mp h with h | h
        · have hv : v = p.2 := congrArg Prod.snd h
          simp [dictGet?, hp, hv]
        · exfalso
          apply hnotin
          rw [hp]
          exact List.mem_map.mpr ⟨(k, v), h, rfl⟩
    · constructor
      · intro h
        have h2 : dictGet? rest k = some v := by simpa [dictGet?, hp] using h
        exact List.mem_cons.mpr (Or.inr ((ih hnd2).mp h2))
      · intro h
        rcases List.mem_cons.mp h with h | h
        · exact absurd (congrArg Prod.fst h.symm) hp
        · have h2 := (ih hnd2).mpr h
          simpa [dictGet?, hp] using h2

theorem dictGet?_congr_perm {κ β : Type} [DecidableEq κ] {l1 l2 : List (κ × β)}
    (hp : l1.Perm l2) (hnd : (l1.map Prod.fst).Nodup) (k : κ) :
    dictGet? l1 k = dictGet? l2 k := by
  have hnd2 : (l2.map Prod.fst).Nodup := ((hp.map Prod.fst).nodup_iff).mp hnd
  cases h1 : dictGet? l1 k with
  | some v =>
    have hm := (dictGet?_eq_some_iff_of_nodup hnd k v).mp h1
    exact ((dictGet?_eq_some_iff_of_nodup hnd2 k v).mpr (hp.mem_iff.mp hm)).symm
  | none =>
    cases h2 : dictGet? l2 k with
    | none => rfl
    | some v =>
      exfalso
      have hm := (dictGet?_eq_some_iff_of_nodup hnd2 k v).mp h2
      have hm1 : (k, v) ∈ l1 := hp.mem_iff.mpr hm
      have h3 := (dictGet?_eq_some_iff_of_nodup hnd k v).mpr hm1
      rw [h1] at h3
      exact Option.noConfusion h3

/-- Claim C7: the serialized speaker table walks the speaker identifiers in
ascending lexicographic order — the emission order is sorted, it covers
exactly the registered identifiers, and two documents whose speaker registries
hold the same speakers produce the same serialized speaker table regardless of
the registration order. -/
theorem speaker_table_serialized_sorted :
    (∀ t : ExmaraldaTranscript,
      t.speaker_print_order.Sorted (· ≤ ·) ∧
      t.speaker_print_order.Perm (t.speaker_table.map Prod.fst)) ∧
    (∀ t1 t2 : ExmaraldaTranscript, t1.speaker_table.Perm t2.speaker_table →
      (t1.speaker_table.map Prod.fst).Nodup →
      ∀ lvl, t1.print_speaker_table lvl = t2.print_speaker_table lvl) := by
  constructor
  · intro t
    exact ⟨List.sorted_mergeSort' _, List.mergeSort_perm _ _⟩
  · intro t1 t2 hperm hnd lvl
    have hkeys : (t1.speaker_table.map Prod.fst).Perm (t2.speaker_table.map Prod.fst) :=
      hperm.map Prod.fst
    haveI : IsAntisymm String (fun a b => a ≤ b) := ⟨fun a b h1 h2 => le_antisymm h1 h2⟩
    have horder : t1.speaker_print_order = t2.speaker_print_order := by
      apply List.eq_of_perm_of_sorted (r := fun a b => a ≤ b)
      · exact (List.mergeSort_perm _ _).trans (hkeys.trans (List.mergeSort_perm _ _).symm)
      · exact List.sorted_mergeSort' _
      · exact List.sorted_mergeSort' _
    have hlen : t1.speaker_table.length = t2.speaker_table.length := hperm.length_eq
    have hget : ∀ k, dictGet? t1.speaker_table k = dictGet? t2.speaker_table k :=
      fun k => dictGet?_congr_perm hperm hnd k
    simp only [ExmaraldaTranscript.print_speaker_table]
    rw [horder, hlen]
    have hfun :
        (fun (acc : String) sid =>
          acc ++ (match dictGet? t1.speaker_table sid with
                  | some sp => sp.pretty_print (lvl + 1)
                  | none => "") ++ "\n") =
        (fun (acc : String) sid =>
          acc ++ (match dictGet? t2.speaker_table sid with
                  | some sp => sp.pretty_print (lvl + 1)
                  | none => "") ++ "\n") := by
      funext acc sid
      rw [hget sid]
    rw [hfun]

/-- Witness for claim C7: registering speakers `"b"` then `"a"` serializes
the speaker table identically to registering `"a"` then `"b"`. -/
theorem speaker_table_serialized_sorted_witness :
    exDocBA.print_speaker_table 0 = exDocAB.print_speaker_table 0 :=
  speaker_table_serialized_sorted.2 exDocBA exDocAB (by decide) (by decide) 0

theorem speaker_eq_char (a b : Speaker) :
    Speaker.eq a b = true ↔
      (a.speaker_id = b.speaker_id ∧ a.abbreviation = b.abbreviation ∧ a.sex = b.sex ∧
       a.languages_used.toFinset = b.languages_used.toFinset ∧
       a.l1.toFinset = b.l1.toFinset ∧ a.l2.toFinset = b.l2.toFinset ∧
       a.ud_speaker_information = b.ud_speaker_information ∧ a.comment = b.comment) := by
  simp only [Speaker.eq]
  split
  · simp_all
  · split
    · simp_all
    · split
      · simp_all
      · split
        · simp_all
        · split
          · simp_all
          · split
            · simp_all
            · split
              · simp_all
              · split
                · simp_all
                · simp_all

/-- Claim C9: `Speaker` equality is structural, treats the three language
collections as sets (membership-equality), and is therefore unaffected by
reordering or duplicating entries within a language list. -/
theorem speaker_eq_set_semantics :
    (∀ a b : Speaker,
      Speaker.eq a b = true ↔
        (a.speaker_id = b.speaker_id ∧ a.abbreviation = b.abbreviation ∧ a.sex = b.sex ∧
         (∀ x, x ∈ a.languages_used ↔ x ∈ b.languages_used) ∧
         (∀ x, x ∈ a.l1 ↔ x ∈ b.l1) ∧
         (∀ x, x ∈ a.l2 ↔ x ∈ b.l2) ∧
         a.ud_speaker_information = b.ud_speaker_information ∧ a.comment = b.comment)) ∧
    (∀ (a : Speaker) (l l2 : List String), l.Perm l2 →
      Speaker.eq { a with languages_used := l } { a with languages_used := l2 } = true) ∧
    (∀ (a : Speaker) (x : String) (l : List String),
      Speaker.eq { a with l1 := x :: x :: l } { a with l1 := x :: l } = true) := by
  have hsets : ∀ (u w : List String), u.toFinset = w.toFinset ↔ (∀ x, x ∈ u ↔ x ∈ w) := by
    intro u w
    constructor
    · intro h x
      rw [← List.mem_toFinset, h, List.mem_toFinset]
    · intro h
      apply Finset.ext
      intro x
      rw [List.mem_toFinset, List.mem_toFinset]
      exact h x
  refine ⟨?_, ?_, ?_⟩
  · intro a b
    rw [speaker_eq_char, hsets, hsets, hsets]
  · intro a l l2 hperm
    rw [speaker_eq_char]
    refine ⟨rfl, rfl, rfl, ?_, rfl, rfl, rfl, rfl⟩
    exact (hsets l l2).mpr (fun x => hperm.mem_iff)
  · intro a x l
    rw [speaker_eq_char]
    refine ⟨rfl, rfl, rfl, rfl, ?_, rfl, rfl, rfl⟩
    simp

/-- Witness for claim C9: two speakers whose languages-used lists are
reorderings of one another compare equal. -/
theorem speaker_eq_set_semantics_witness :
    Speaker.eq
      (Speaker.init "1" "" "" (.list ["de", "en"]) (.str "") (.str "") "" "")
      (Speaker.init "1" "" "" (.list ["en", "de"]) (.str "") (.str "") "" "") = true :=
  speaker_eq_set_semantics.2.1
    (Speaker.init "1" "" "" (.list ["de", "en"]) (.str "") (.str "") "" "")
    ["de", "en"] ["en", "de"] (by decide)

/-- Claim C10: every string passed for one of the three language parameters of
the `Speaker` constructor — a non-empty string included — is replaced by the
empty list, and list arguments are stored as given; in particular a speaker
constructed with the languages-used argument `"deutsch"` has an empty
languages-used collection. -/
theorem speaker_init_languages :
    (∀ (sid abbr sx ud cm s : String) (b c : StrOrList),
      (Speaker.init sid abbr sx (.str s) b c ud cm).languages_used = []) ∧
    (∀ (sid abbr sx ud cm : String) (l : List String) (b c : StrOrList),
      (Speaker.init sid abbr sx (.list l) b c ud cm).languages_used = l) ∧
    (∀ (sid abbr sx ud cm s : String) (b c : StrOrList),
      (Speaker.init sid abbr sx b (.str s) c ud cm).l1 = []) ∧
    (∀ (sid abbr sx ud cm : String) (l : List String) (b c : StrOrList),
      (Speaker.init sid abbr sx b (.list l) c ud cm).l1 = l) ∧
    (∀ (sid abbr sx ud cm s : String) (b c : StrOrList),
      (Speaker.init sid abbr sx b c (.str s) ud cm).l2 = []) ∧
    (∀ (sid abbr sx ud cm : String) (l : List String) (b c : StrOrList),
      (Speaker.init sid abbr sx b c (.list l) ud cm).l2 = l) ∧
    (Speaker.init "s" "" "" (.str "deutsch") (.str "") (.str "") "" "").languages_used = [] := by
  refine ⟨?_, ?_, ?_, ?_, ?_, ?_, rfl⟩ <;> intros <;> rfl

unseal List.merge List.mergeSort Substring.takeWhileAux Substring.takeRightWhileAux in
/-- Claim C1 (failing-input evaluation): the round-trip property fails on the
code — a document whose metadata comment is `"c"` serializes to a tree whose
`comment` element carries that text, yet parsing the serialized form yields a
document whose comment is empty (the loader iterates the impossible tag
`'<comment>'`), so `parse(serialize(D))` differs from `D`. -/
theorem round_trip_comment_not_reconstructed :
    exDocComment.meta_information.comment = "c" ∧
    (ExmaraldaTranscript.load exDocComment.toXmlTree).map
      (fun t => t.meta_information.comment) = Except.ok "" :=
  ⟨rfl, rfl⟩

/-- Claim C2 (failing-input evaluation): parsing an input document whose `tli`
element omits the optional `time` attribute does not succeed with a default —
the loader's unconditional subscript `attrib['time']` raises `KeyError`. -/
theorem load_missing_time_raises :
    ExmaraldaTranscript.load exTliNoTime = Except.error "KeyError: time" := by
  rfl

/-- Claim C6 (failing-input evaluation): the input document contains a
`comment` metadata element with text `"hello"`, yet the reconstructed
document's comment field stays empty, because the loader iterates the tag
`'<comment>'` (and `'transcription-convention>'`), which can never match an
XML element name. -/
theorem load_comment_element_not_read :
    (XmlElem.iterTag exCommentTree "comment").map XmlElem.text = [some "hello"] ∧
    (ExmaraldaTranscript.load exCommentTree).map
      (fun t => t.meta_information.comment) = Except.ok "" := by
  exact ⟨rfl, rfl⟩

/-- Claim C8 (failing-input evaluation): `Speaker.__ge__` compares with `<=`
instead of `>=` — for speakers with identifiers `"a"` and `"b"`, the code's
`a >= b` returns true although `"a" >= "b"` is false as strings (while
`__lt__` agrees with the string order, the `>=` operator does not). -/
theorem speaker_ge_uses_le_on_ids :
    Speaker.ge exSpeakerA exSpeakerB = true ∧
    ¬ (exSpeakerA.speaker_id ≥ exSpeakerB.speaker_id) ∧
    Speaker.lt exSpeakerA exSpeakerB = true := by
  refine ⟨?_, ?_, ?_⟩
  · simp only [Speaker.ge]
    rw [decide_eq_true_eq]
    show ("a" : String) ≤ "b"
    rw [String.le_iff_toList_le]
    decide
  · rw [ge_iff_le]
    show ¬ (("b" : String) ≤ "a")
    rw [String.le_iff_toList_le]
    decide
  · simp only [Speaker.lt]
    rw [decide_eq_true_eq]
    show ("a" : String) < "b"
    rw [String.lt_iff_toList_lt]
    decide
